import Mathlib

/-!
Verification of the Permit Sheriff application (`App.py`).

The file shallowly embeds the core of `App.py`: the permit registry fixture
(`get_permit_data`), the SHA-256 audit-proof generator (`hash_data`), the
letter composer (`generate_letter_text`), the PDF assembly
(`create_pdf_letter`), the row classifier (`highlight_violation`), and the
Streamlit session machinery (trigger flag, remembered selection, enforcement
log) as an explicit state-passing step function over `SessionState`.
Machine integers are `Nat` with explicit reduction modulo `2 ^ 32` where the
SHA-256 compression function needs 32-bit wraparound.
-/

namespace PermitSheriff

/-! ## SHA-256 (the digest behind `hashlib.sha256(content.encode()).hexdigest()`)

`App.py` line 93-95 delegates to Python's `hashlib.sha256` over the UTF-8
encoding of its argument and renders the digest as 64 lowercase hex
characters.  The implementation below is FIPS 180-4 SHA-256 over byte lists,
with 32-bit words represented as `Nat` reduced modulo `2 ^ 32`. -/

/-- Reduce to a 32-bit word. -/
def w32 (n : Nat) : Nat := n % 4294967296

/-- 32-bit modular addition. -/
def add32 (a b : Nat) : Nat := (a + b) % 4294967296

/-- Rotate a 32-bit word right by `n` bits. -/
def rotr (n x : Nat) : Nat := ((x >>> n) ||| (x <<< (32 - n))) % 4294967296

/-- SHA-256 small sigma 0 (message schedule). -/
def ssig0 (x : Nat) : Nat := (rotr 7 x) ^^^ (rotr 18 x) ^^^ (x >>> 3)

/-- SHA-256 small sigma 1 (message schedule). -/
def ssig1 (x : Nat) : Nat := (rotr 17 x) ^^^ (rotr 19 x) ^^^ (x >>> 10)

/-- SHA-256 big Sigma 0 (compression). -/
def bsig0 (x : Nat) : Nat := (rotr 2 x) ^^^ (rotr 13 x) ^^^ (rotr 22 x)

/-- SHA-256 big Sigma 1 (compression). -/
def bsig1 (x : Nat) : Nat := (rotr 6 x) ^^^ (rotr 11 x) ^^^ (rotr 25 x)

/-- SHA-256 choice function. -/
def ch (x y z : Nat) : Nat := (x &&& y) ^^^ ((x ^^^ 4294967295) &&& z)

/-- SHA-256 majority function. -/
def maj (x y z : Nat) : Nat := (x &&& y) ^^^ (x &&& z) ^^^ (y &&& z)

/-- The 64 SHA-256 round constants (FIPS 180-4, written in decimal). -/
def K : List Nat :=
  [1116352408, 1899447441, 3049323471, 3921009573,
   961987163, 1508970993, 2453635748, 2870763221,
   3624381080, 310598401, 607225278, 1426881987,
   1925078388, 2162078206, 2614888103, 3248222580,
   3835390401, 4022224774, 264347078, 604807628,
   770255983, 1249150122, 1555081692, 1996064986,
   2554220882, 2821834349, 2952996808, 3210313671,
   3336571891, 3584528711, 113926993, 338241895,
   666307205, 773529912, 1294757372, 1396182291,
   1695183700, 1986661051, 2177026350, 2456956037,
   2730485921, 2820302411, 3259730800, 3345764771,
   3516065817, 3600352804, 4094571909, 275423344,
   430227734, 506948616, 659060556, 883997877,
   958139571, 1322822218, 1537002063, 1747873779,
   1955562222, 2024104815, 2227730452, 2361852424,
   2428436474, 2756734187, 3204031479, 3329325298]

/-- The eight 32-bit working values of SHA-256. -/
structure H8 where
  a : Nat
  b : Nat
  c : Nat
  d : Nat
  e : Nat
  f : Nat
  g : Nat
  h : Nat

/-- The SHA-256 initial hash value (FIPS 180-4, written in decimal). -/
def H0 : H8 :=
  ⟨1779033703, 3144134277, 1013904242, 2773480762,
   1359893119, 2600822924, 528734635, 1541459225⟩

/-- One SHA-256 compression round. -/
def round (s : H8) (ki wi : Nat) : H8 :=
  let t1 := add32 s.h (add32 (bsig1 s.e) (add32 (ch s.e s.f s.g) (add32 ki wi)))
  let t2 := add32 (bsig0 s.a) (maj s.a s.b s.c)
  ⟨add32 t1 t2, s.a, s.b, s.c, add32 s.d t1, s.e, s.f, s.g⟩

/-- Run the 64 compression rounds over the paired constants and schedule. -/
def rounds : List Nat → List Nat → H8 → H8
  | k :: ks, w :: ws, s => rounds ks ws (round s k w)
  | _, _, s => s

/-- Componentwise 32-bit addition of hash states. -/
def addH (x y : H8) : H8 :=
  ⟨add32 x.a y.a, add32 x.b y.b, add32 x.c y.c, add32 x.d y.d,
   add32 x.e y.e, add32 x.f y.f, add32 x.g y.g, add32 x.h y.h⟩

/-- Extend the 16-word block (given reversed) by `k` more schedule words;
returns the full schedule in order. -/
def extendW : Nat → List Nat → List Nat
  | 0, revW => revW.reverse
  | k + 1, revW =>
    let w2 := revW.getD 1 0
    let w7 := revW.getD 6 0
    let w15 := revW.getD 14 0
    let w16 := revW.getD 15 0
    extendW k (add32 (add32 (ssig1 w2) w7) (add32 (ssig0 w15) w16) :: revW)

/-- Group a byte list into big-endian 32-bit words (fuel-driven). -/
def toWords : Nat → List Nat → List Nat
  | 0, _ => []
  | fuel + 1, b0 :: b1 :: b2 :: b3 :: rest =>
      (((b0 * 256 + b1) * 256 + b2) * 256 + b3) :: toWords fuel rest
  | _ + 1, _ => []

/-- Big-endian bytes of `n`, `k` bytes wide. -/
def beBytes : Nat → Nat → List Nat
  | 0, _ => []
  | k + 1, n => (n >>> (8 * k)) % 256 :: beBytes k n

/-- SHA-256 padding: append `0x80`, zeros to 56 mod 64, then the 64-bit
big-endian bit length. -/
def padBytes (msg : List Nat) : List Nat :=
  let len := msg.length
  let zeros := (120 - (len + 1) % 64) % 64
  msg ++ 128 :: List.replicate zeros 0 ++ beBytes 8 (len * 8)

/-- Process the word stream block by block (fuel-driven, 16 words a block). -/
def processBlocks : Nat → List Nat → H8 → H8
  | 0, _, s => s
  | _ + 1, [], s => s
  | fuel + 1, ws, s =>
      let w := extendW 48 (ws.take 16).reverse
      processBlocks fuel (ws.drop 16) (addH s (rounds K w s))

/-- Lowercase hex digit for a nibble. -/
def hexDigit (n : Nat) : Char :=
  if n < 10 then Char.ofNat (48 + n) else Char.ofNat (87 + n)

/-- Eight lowercase hex characters of a 32-bit word, most significant first. -/
def toHex8 (w : Nat) : List Char :=
  [hexDigit ((w >>> 28) % 16), hexDigit ((w >>> 24) % 16),
   hexDigit ((w >>> 20) % 16), hexDigit ((w >>> 16) % 16),
   hexDigit ((w >>> 12) % 16), hexDigit ((w >>> 8) % 16),
   hexDigit ((w >>> 4) % 16), hexDigit (w % 16)]

/-- The 64 hex characters of a final hash state. -/
def hexOfHash (s : H8) : List Char :=
  toHex8 s.a ++ toHex8 s.b ++ toHex8 s.c ++ toHex8 s.d ++
  toHex8 s.e ++ toHex8 s.f ++ toHex8 s.g ++ toHex8 s.h

/-- SHA-256 of a byte list, rendered as 64 lowercase hex characters. -/
def sha256hex (msg : List Nat) : String :=
  let padded := padBytes msg
  let ws := toWords padded.length padded
  String.mk (hexOfHash (processBlocks ws.length ws H0))

/-- UTF-8 bytes of one character (what Python `str.encode()` emits). -/
def utf8Char (c : Char) : List Nat :=
  let n := c.toNat
  if n < 128 then [n]
  else if n < 2048 then [192 + n / 64, 128 + n % 64]
  else if n < 65536 then [224 + n / 4096, 128 + n / 64 % 64, 128 + n % 64]
  else [240 + n / 262144, 128 + n / 4096 % 64, 128 + n / 64 % 64, 128 + n % 64]

/-- UTF-8 bytes of a string. -/
def utf8Bytes (s : String) : List Nat :=
  s.data.foldr (fun c acc => utf8Char c ++ acc) []

/-- `App.py` line 93-95: `hash_data(content)` returns
`hashlib.sha256(content.encode()).hexdigest()`. -/
def hash_data (content : String) : String :=
  sha256hex (utf8Bytes content)

/-! ## Data model: the permit registry fixture (`get_permit_data`, lines 47-90) -/

/-- A row of the DataFrame built by `get_permit_data`.  Field names follow the
column labels: `permitId` = "Permit ID", `address` = "Address", `permitType` =
"Type", `submitted` = "Submitted", `status` = "Status", `statuteLimit` =
"Statute Limit", `daysOpen` = "Days Open", `violation` = "Violation",
`refundOwed` = "Refund Owed". -/
structure Permit where
  permitId : String
  address : String
  permitType : String
  submitted : String
  status : String
  statuteLimit : Nat
  daysOpen : Nat
  violation : Bool
  refundOwed : String
deriving DecidableEq, Repr

/-- `App.py` lines 47-90: the fixed three-row permit registry.  The
"Submitted" column is `(datetime.now() - timedelta(days=n)).strftime(...)`;
the ambient clock and formatting are abstracted as the parameter `fmt`, so
`fmt n` stands for the formatted date `n` days before now. -/
def get_permit_data (fmt : Nat → String) : List Permit :=
  [{ permitId := "MIA-24-001", address := "120 Ocean Dr, Miami",
     permitType := "Residential Reno", submitted := fmt 45,
     status := "Under Review", statuteLimit := 30, daysOpen := 45,
     violation := true, refundOwed := "$450.00" },
   { permitId := "MIA-24-009", address := "88 Biscayne Blvd",
     permitType := "Commercial HVAC", submitted := fmt 5,
     status := "In-Take", statuteLimit := 10, daysOpen := 5,
     violation := false, refundOwed := "$0.00" },
   { permitId := "JAX-24-882", address := "400 Bay St, Jax",
     permitType := "New Construction", submitted := fmt 62,
     status := "Comments Pending", statuteLimit := 45, daysOpen := 62,
     violation := true, refundOwed := "$1,200.00" }]

/-- `App.py` line 172: `violations = df[df["Violation"] == True]`. -/
def violations (fmt : Nat → String) : List Permit :=
  (get_permit_data fmt).filter (fun p => p.violation)

/-! ## Row classification (`highlight_violation`, lines 200-211) -/

/-- The source computes `ratio = row["Days Open"] / row["Statute Limit"]` in
floating point and tests `ratio > 0.8`.  Over the non-negative integer
columns this comparison is embedded exactly as `5 * daysOpen > 4 *
statuteLimit`: for `statuteLimit > 0` the two are equivalent in exact
arithmetic, and for `statuteLimit = 0` the cross-multiplied test reproduces
the source's IEEE behaviour (numpy yields `inf > 0.8 = True` when
`daysOpen > 0` and `nan > 0.8 = False` when `daysOpen = 0`). -/
def ratioGtPoint8 (daysOpen statuteLimit : Nat) : Bool :=
  4 * statuteLimit < 5 * daysOpen

/-- The per-row style string chosen by `highlight_violation` (lines 204-210):
red when the violation flag is set, else yellow when `ratio > 0.8`, else
green. -/
def rowStyle (violation : Bool) (daysOpen statuteLimit : Nat) : String :=
  if violation then "background-color: #ffcccc"
  else if ratioGtPoint8 daysOpen statuteLimit then "background-color: #fff4cc"
  else "background-color: #ccffcc"

/-- `App.py` lines 200-211: one style string per column of the row (the
source loops `for _ in row.index`; the fixture has 9 columns). -/
def highlight_violation (p : Permit) : List String :=
  List.replicate 9 (rowStyle p.violation p.daysOpen p.statuteLimit)

/-- The spec's derived classification names for the three row colors. -/
inductive Classification where
  | Compliant
  | AtRisk
  | Violation
deriving DecidableEq, Repr

/-- The classification denoted by `highlight_violation`'s branch structure:
red = Violation, yellow = AtRisk, green = Compliant. -/
def classify (violation : Bool) (daysOpen statuteLimit : Nat) : Classification :=
  if violation then .Violation
  else if ratioGtPoint8 daysOpen statuteLimit then .AtRisk
  else .Compliant

/-- The style string rendering each classification. -/
def styleOf : Classification → String
  | .Violation => "background-color: #ffcccc"
  | .AtRisk => "background-color: #fff4cc"
  | .Compliant => "background-color: #ccffcc"

/-- The spec's error taxonomy for compliance evaluation (§7 of the spec).
The code of `App.py` has no validation path: no branch of
`highlight_violation` (or of the dashboard around it) ever rejects a permit,
so the embedded evaluation is total and always returns `Except.ok`. -/
inductive EvalError where
  | invalidPermitData
deriving DecidableEq, Repr

/-- Compliance evaluation as the code performs it: classification is always
computed and no error is ever signalled (there is no `statuteLimit ≤ 0`
check anywhere in `App.py`). -/
def evaluate (violation : Bool) (daysOpen statuteLimit : Nat) :
    Except EvalError Classification :=
  .ok (classify violation daysOpen statuteLimit)

/-! ## Letter composer (`generate_letter_text`, lines 98-120) -/

/-- `App.py` lines 98-120: the f-string template of the legal demand letter.
`dateStr` stands for `datetime.now().strftime('%B %d, %Y')`; the integer
fields are rendered in decimal exactly as Python's str() does. -/
def generate_letter_text (p : Permit) (dateStr : String) : String :=
  "DEMAND FOR REMEDY PURSUANT TO FLORIDA STATUTE 553.79\n\n" ++
  "TO: Building Official, City Permitting Department\n" ++
  "RE: Permit Application #" ++ p.permitId ++ "\n" ++
  "DATE: " ++ dateStr ++ "\n\n" ++
  "NOTICE OF STATUTORY VIOLATION\n\n" ++
  "This letter serves as formal notice that the review period for Permit #" ++
  p.permitId ++ " at " ++ p.address ++
  " has exceeded the mandatory statutory limit of " ++
  toString p.statuteLimit ++ " days.\n\n" ++
  "Current Status: " ++ toString p.daysOpen ++ " days elapsed.\n\n" ++
  "Pursuant to state law, we hereby demand:\n" ++
  "1. Immediate refund of " ++ p.refundOwed ++ " (10% of permit fees).\n" ++
  "2. Immediate issuance of the permit or specific written cause for delay.\n\n" ++
  "This notice has been cryptographically timestamped on-chain. " ++
  "Failure to respond may result in legal escalation.\n\n" ++
  "Sincerely,\nPermit Sheriff Enforcement Agent\n"

/-! ## PDF assembly (`create_pdf_letter`, lines 123-149) -/

/-- Python `s[:n]` on code points. -/
def strTake (s : String) (n : Nat) : String :=
  String.mk (s.data.take n)

/-- Python `str.strip()`: drop leading and trailing whitespace. -/
def pyStrip (s : String) : String :=
  String.mk
    (((s.data.dropWhile Char.isWhitespace).reverse.dropWhile
        Char.isWhitespace).reverse)

/-- The text content `create_pdf_letter` lays out: header (line 131), the
stripped letter body (lines 137-138), the proof footer line (line 144) and
the timestamp footer line (line 145).  Pagination and font handling belong
to the external rendering engine and carry no further text. -/
structure PdfDoc where
  header : String
  body : String
  proofLine : String
  timestampLine : String
deriving DecidableEq, Repr

/-- `App.py` lines 123-149: assemble the PDF text.  `nowIso` stands for the
`datetime.now().isoformat()` sampled at line 145, an input independent of
`tx_hash`. -/
def create_pdf_letter (letter_text tx_hash nowIso : String) : PdfDoc :=
  { header := "PERMIT SHERIFF ENFORCEMENT",
    body := pyStrip letter_text,
    proofLine := "CRYPTOGRAPHIC PROOF: " ++ tx_hash,
    timestampLine := "TIMESTAMP: " ++ nowIso }

/-! ## Session state machine (`st.session_state` and the rerun script)

Streamlit reruns `App.py` top to bottom on every interaction; widget values
are sampled once per rerun and `st.session_state` persists between reruns.
The embedding models one rerun as a step function on the persistent state;
the widget values observed during that rerun are the step's input.  A button
returns `True` exactly in the rerun caused by its click. -/

/-- One entry of `st.session_state["enforcement_log"]` (lines 296-303).
Field names follow the dict keys "Permit ID", "Address", "Time", "Hash". -/
structure EnforcementRecord where
  permitId : String
  address : String
  time : String
  hash : String
deriving DecidableEq, Repr

/-- The persistent `st.session_state` (lines 12-17): the `trigger` flag, the
remembered `selected_id`, and the append-only `enforcement_log`. -/
structure SessionState where
  trigger : Bool
  selected_id : Option String
  enforcement_log : List EnforcementRecord
deriving DecidableEq, Repr

/-- `App.py` lines 12-17: the initial session state. -/
def initState : SessionState :=
  { trigger := false, selected_id := none, enforcement_log := [] }

/-- The widget values one rerun observes: the selectbox value (line 235,
`none` when the violating set is empty and no selectbox is rendered),
whether the TRIGGER SHERIFF button (line 246) or the Start Over button
(line 309) returned `True` this rerun, and the ambient clock samples the
rerun takes: `dateStr` for the letter's DATE line, `nowStr` for the log
entry's "Time", and `nonce` for `str(time.time())` at line 271. -/
structure RunInput where
  currentSelection : Option String
  pressTrigger : Bool
  pressStartOver : Bool
  dateStr : String
  nowStr : String
  nonce : String
deriving DecidableEq, Repr

/-- Pipeline events of one rerun, mirroring the `st.status` block: the
TRIGGER button handler (lines 247-248), the pipeline start (line 259), the
letter drafting step (lines 264-267), the notarization step (lines 269-272)
and the completion (append and trigger reset, lines 296-306). -/
inductive Ev where
  | triggerAccepted (id : String)
  | cycleStart (id : String)
  | drafted (id : String)
  | notarized (id : String)
  | completed (id : String)
deriving DecidableEq, Repr

/-- One rerun of `App.py`, returning the new session state and the pipeline
events the rerun performed.

* Lines 230-248 (col_left): when a permit is selected and the TRIGGER
  SHERIFF button was clicked, set `trigger := True` and remember the id.
* Line 236: `target_permit = df[df["Permit ID"] == selected].iloc[0]`,
  embedded as `List.find?`.
* Lines 250-257 (col_right guard): the pipeline body runs only when a
  selection exists, `trigger` is set, the remembered id equals the current
  selection, and the target row was found.
* Lines 258-303: draft the letter, notarize (`tx_hash = hash_data(letter +
  str(time.time()))`, line 271), append the log entry `{Permit ID, Address,
  Time, Hash = tx_hash[:12] + "..."}` (lines 296-303), then reset the
  trigger (line 306).
* Lines 309-312: the Start Over button, reachable only inside the pipeline
  branch, clears the trigger and the remembered id. -/
def runScriptEv (fmt : Nat → String) (st : SessionState) (inp : RunInput) :
    SessionState × List Ev :=
  match inp.currentSelection with
  | none => (st, [])
  | some id =>
    let st1 :=
      if inp.pressTrigger then
        { st with trigger := true, selected_id := some id }
      else st
    let evs0 := if inp.pressTrigger then [Ev.triggerAccepted id] else []
    match (get_permit_data fmt).find? (fun p => p.permitId == id) with
    | none => (st1, evs0)
    | some target =>
      if st1.trigger && (st1.selected_id == some id) then
        let letter := generate_letter_text target inp.dateStr
        let tx := hash_data (letter ++ inp.nonce)
        let st2 :=
          { st1 with
            enforcement_log := st1.enforcement_log ++
              [{ permitId := id, address := target.address,
                 time := inp.nowStr, hash := strTake tx 12 ++ "..." }],
            trigger := false }
        let st3 :=
          if inp.pressStartOver then
            { st2 with trigger := false, selected_id := none }
          else st2
        (st3, evs0 ++ [Ev.cycleStart id, Ev.drafted id, Ev.notarized id,
                       Ev.completed id])
      else (st1, evs0)

/-- The session state after one rerun. -/
def runScript (fmt : Nat → String) (st : SessionState) (inp : RunInput) :
    SessionState :=
  (runScriptEv fmt st inp).1

/-- A sequence of reruns. -/
def runMany (fmt : Nat → String) : SessionState → List RunInput → SessionState
  | st, [] => st
  | st, i :: is => runMany fmt (runScript fmt st i) is

/-- The pipeline events of a sequence of reruns, in order. -/
def sessionTrace (fmt : Nat → String) :
    SessionState → List RunInput → List Ev
  | _, [] => []
  | st, i :: is =>
    (runScriptEv fmt st i).2 ++ sessionTrace fmt (runScriptEv fmt st i).1 is

/-- Why a rerun's pipeline branch did or did not fire, labelling the
conjuncts of the guard at lines 252-257 in source order with the spec's
error taxonomy: no selection rendered, trigger flag unset, remembered id
stale, target row missing, or the pipeline ran. -/
inductive TriggerOutcome where
  | noSelection
  | noTrigger
  | staleSelection
  | noTarget
  | ran
deriving DecidableEq, Repr

/-- Evaluate the pipeline guard (lines 252-257) on a session state and the
current selection, reporting which conjunct fails first. -/
def triggerOutcome (fmt : Nat → String) (st : SessionState)
    (current : Option String) : TriggerOutcome :=
  match current with
  | none => .noSelection
  | some id =>
    if !st.trigger then .noTrigger
    else if !(st.selected_id == some id) then .staleSelection
    else if ((get_permit_data fmt).find? (fun p => p.permitId == id)).isNone
      then .noTarget
    else .ran

/-- Whether one rerun's pipeline branch fires, as a Boolean on the state the
guard actually sees (the state after the button handler). -/
def pipelineRan (fmt : Nat → String) (st : SessionState) (inp : RunInput) :
    Bool :=
  match inp.currentSelection with
  | none => false
  | some id =>
    let st1 :=
      if inp.pressTrigger then
        { st with trigger := true, selected_id := some id }
      else st
    match (get_permit_data fmt).find? (fun p => p.permitId == id) with
    | none => false
    | some _ => st1.trigger && (st1.selected_id == some id)

/-- The log entry a rerun would append when its pipeline fires (lines
296-303). -/
def stepRecords (fmt : Nat → String) (st : SessionState) (inp : RunInput) :
    List EnforcementRecord :=
  match inp.currentSelection with
  | none => []
  | some id =>
    let st1 :=
      if inp.pressTrigger then
        { st with trigger := true, selected_id := some id }
      else st
    match (get_permit_data fmt).find? (fun p => p.permitId == id) with
    | none => []
    | some target =>
      if st1.trigger && (st1.selected_id == some id) then
        [{ permitId := id, address := target.address, time := inp.nowStr,
           hash := strTake (hash_data
             (generate_letter_text target inp.dateStr ++ inp.nonce)) 12
             ++ "..." }]
      else []

/-- The log entries appended over a sequence of reruns, in completion
order. -/
def manyRecords (fmt : Nat → String) :
    SessionState → List RunInput → List EnforcementRecord
  | _, [] => []
  | st, i :: is =>
    stepRecords fmt st i ++ manyRecords fmt (runScript fmt st i) is

/-- The number of reruns of a sequence whose pipeline fired. -/
def countCompleted (fmt : Nat → String) :
    SessionState → List RunInput → Nat
  | _, [] => 0
  | st, i :: is =>
    (if pipelineRan fmt st i then 1 else 0) +
      countCompleted fmt (runScript fmt st i) is

/-! ## Single-flight bookkeeping over event traces -/

/-- Number of `cycleStart` events in a trace. -/
def countStarts (es : List Ev) : Nat :=
  es.countP (fun e => match e with | Ev.cycleStart _ => true | _ => false)

/-- Number of `completed` events in a trace. -/
def countCompletes (es : List Ev) : Nat :=
  es.countP (fun e => match e with | Ev.completed _ => true | _ => false)

/-- Scan a trace with an in-flight flag: starting a cycle or accepting a
trigger while a cycle is already in flight fails the scan; a `completed`
event clears the flag.  `singleFlightB false tr = true` says the trace never
has two in-flight cycles and never accepts a trigger while one is in
flight. -/
def singleFlightB : Bool → List Ev → Bool
  | _, [] => true
  | false, Ev.cycleStart _ :: es => singleFlightB true es
  | true, Ev.cycleStart _ :: _ => false
  | true, Ev.triggerAccepted _ :: _ => false
  | true, Ev.completed _ :: es => singleFlightB false es
  | b, _ :: es => singleFlightB b es

/-- A rerun input the UI can actually produce: the selectbox at line 235
offers exactly the ids of the violating rows (or nothing when the violating
set is empty). -/
def wfInput (fmt : Nat → String) (inp : RunInput) : Bool :=
  match inp.currentSelection with
  | none => true
  | some id => (violations fmt).any (fun p => p.permitId == id)

/-! ## A concrete two-cycle scenario on permit MIA-24-001 -/

/-- A fixed clock for the scenario: every "Submitted" date renders as
2025-10-01. -/
def demoFmt : Nat → String := fun _ => "2025-10-01"

/-- A rerun that selects MIA-24-001 and clicks TRIGGER SHERIFF, with the
given `str(time.time())` nonce. -/
def demoInput (nonce : String) : RunInput :=
  { currentSelection := some "MIA-24-001", pressTrigger := true,
    pressStartOver := false, dateStr := "October 12, 2025",
    nowStr := "2025-10-12 10:00", nonce := nonce }

/-- The demand letter both scenario cycles draft (same permit, same DATE
line). -/
def demoLetter : String :=
  generate_letter_text
    { permitId := "MIA-24-001", address := "120 Ocean Dr, Miami",
      permitType := "Residential Reno", submitted := "2025-10-01",
      status := "Under Review", statuteLimit := 30, daysOpen := 45,
      violation := true, refundOwed := "$450.00" } "October 12, 2025"

/-- The ledger entry one scenario cycle appends, as a function of its
nonce. -/
def demoEntry (nonce : String) : EnforcementRecord :=
  { permitId := "MIA-24-001", address := "120 Ocean Dr, Miami",
    time := "2025-10-12 10:00",
    hash := strTake (hash_data (demoLetter ++ nonce)) 12 ++ "..." }

/-! ## Theorems -/

example : hash_data "abc" =
    "ba7816bf8f01cfea414140de5dae2223b00361a396177a9cb410ff61f20015ad" := by
  decide

/-- C1: every permit record supplied by `get_permit_data` has its violation
flag equal to `daysOpen > statuteLimit` (strict); in particular the record
with statute limit 30 and 45 days open has `violation = true`, and the one
with statute limit 10 and 5 days open has `violation = false`. -/
theorem registry_violation_iff_days_exceed_limit (fmt : Nat → String) :
    (∀ p ∈ get_permit_data fmt,
      p.violation = true ↔ p.daysOpen > p.statuteLimit) ∧
    (∀ p ∈ get_permit_data fmt,
      p.statuteLimit = 30 → p.daysOpen = 45 → p.violation = true) ∧
    (∀ p ∈ get_permit_data fmt,
      p.statuteLimit = 10 → p.daysOpen = 5 → p.violation = false) := by
  refine ⟨?_, ?_, ?_⟩ <;>
  · intro p hp
    simp only [get_permit_data, List.mem_cons, List.not_mem_nil, or_false]
      at hp
    rcases hp with rfl | rfl | rfl <;> norm_num

/-- Witness for C1 at the first registry record under a trivial clock. -/
theorem registry_violation_iff_days_exceed_limit_witness :
    ({ permitId := "MIA-24-001", address := "120 Ocean Dr, Miami",
       permitType := "Residential Reno", submitted := "",
       status := "Under Review", statuteLimit := 30, daysOpen := 45,
       violation := true, refundOwed := "$450.00" } : Permit).violation = true
      ↔ (45 : Nat) > 30 :=
  (registry_violation_iff_days_exceed_limit (fun _ => "")).1 _
    (by simp [get_permit_data])

/-- For positive statute limits, the source's `ratio > 0.8` test is the
cross-multiplied integer test. -/
theorem ratio_gt_p8_iff (d s : Nat) (hs : 0 < s) :
    ((4 : ℚ) / 5 < (d : ℚ) / (s : ℚ)) ↔ 4 * s < 5 * d := by
  have hs1 : (0 : ℚ) < (s : ℚ) := by exact_mod_cast hs
  rw [div_lt_div_iff₀ (by norm_num) hs1]
  norm_cast
  omega

/-- For positive statute limits, `ratio ≤ 0.8` is the cross-multiplied
integer test. -/
theorem ratio_le_p8_iff (d s : Nat) (hs : 0 < s) :
    ((d : ℚ) / (s : ℚ) ≤ (4 : ℚ) / 5) ↔ 5 * d ≤ 4 * s := by
  have hs1 : (0 : ℚ) < (s : ℚ) := by exact_mod_cast hs
  rw [div_le_div_iff₀ hs1 (by norm_num)]
  norm_cast
  omega

/-- For positive statute limits, `ratio ≤ 1` means `daysOpen ≤
statuteLimit`. -/
theorem ratio_le_one_iff (d s : Nat) (hs : 0 < s) :
    ((d : ℚ) / (s : ℚ) ≤ 1) ↔ d ≤ s := by
  have hs1 : (0 : ℚ) < (s : ℚ) := by exact_mod_cast hs
  rw [div_le_one hs1]
  norm_cast

/-- For positive statute limits, `ratio > 1` means `daysOpen >
statuteLimit`. -/
theorem one_lt_ratio_iff (d s : Nat) (hs : 0 < s) :
    ((1 : ℚ) < (d : ℚ) / (s : ℚ)) ↔ s < d := by
  have hs1 : (0 : ℚ) < (s : ℚ) := by exact_mod_cast hs
  rw [lt_div_iff₀ hs1, one_mul]
  norm_cast

/-- C2: for a permit with positive statute limit whose violation flag equals
`daysOpen > statuteLimit`, the row classification partitions `[0, ∞)` by the
ratio `daysOpen / statuteLimit`: ratio ≤ 0.8 is Compliant (green), 0.8 <
ratio ≤ 1 is AtRisk (yellow), ratio > 1 is Violation (red); ratio exactly
0.8 is Compliant, ratio exactly 1 is AtRisk, the Violation class coincides
with the violation flag, and the bands cover every ratio. -/
theorem classification_bands (daysOpen statuteLimit : Nat)
    (hs : 0 < statuteLimit)
    (violation : Bool)
    (hv : violation = decide (statuteLimit < daysOpen)) :
    ((daysOpen : ℚ) / statuteLimit ≤ 4 / 5 →
      classify violation daysOpen statuteLimit = .Compliant) ∧
    ((4 : ℚ) / 5 < (daysOpen : ℚ) / statuteLimit →
      (daysOpen : ℚ) / statuteLimit ≤ 1 →
      classify violation daysOpen statuteLimit = .AtRisk) ∧
    ((1 : ℚ) < (daysOpen : ℚ) / statuteLimit →
      classify violation daysOpen statuteLimit = .Violation) ∧
    ((daysOpen : ℚ) / statuteLimit = 4 / 5 →
      classify violation daysOpen statuteLimit = .Compliant) ∧
    ((daysOpen : ℚ) / statuteLimit = 1 →
      classify violation daysOpen statuteLimit = .AtRisk) ∧
    (classify violation daysOpen statuteLimit = .Violation ↔
      violation = true) ∧
    ((daysOpen : ℚ) / statuteLimit ≤ 4 / 5 ∨
      ((4 : ℚ) / 5 < (daysOpen : ℚ) / statuteLimit ∧
        (daysOpen : ℚ) / statuteLimit ≤ 1) ∨
      (1 : ℚ) < (daysOpen : ℚ) / statuteLimit) ∧
    (rowStyle violation daysOpen statuteLimit =
      styleOf (classify violation daysOpen statuteLimit)) := by
  subst hv
  have hle8 := ratio_le_p8_iff daysOpen statuteLimit hs
  have hgt8 := ratio_gt_p8_iff daysOpen statuteLimit hs
  have hle1 := ratio_le_one_iff daysOpen statuteLimit hs
  have hlt1 := one_lt_ratio_iff daysOpen statuteLimit hs
  refine ⟨?_, ?_, ?_, ?_, ?_, ?_, ?_, ?_⟩
  · intro h
    have h5 : 5 * daysOpen ≤ 4 * statuteLimit := hle8.mp h
    have h1 : decide (statuteLimit < daysOpen) = false := by
      simp only [decide_eq_false_iff_not]; omega
    have h2 : ratioGtPoint8 daysOpen statuteLimit = false := by
      simp only [ratioGtPoint8, decide_eq_false_iff_not]; omega
    simp [classify, h1, h2]
  · intro h1 h2
    have h5 : 4 * statuteLimit < 5 * daysOpen := hgt8.mp h1
    have h6 : daysOpen ≤ statuteLimit := hle1.mp h2
    have hb1 : decide (statuteLimit < daysOpen) = false := by
      simp only [decide_eq_false_iff_not]; omega
    have hb2 : ratioGtPoint8 daysOpen statuteLimit = true := by
      simp only [ratioGtPoint8, decide_eq_true_eq]; omega
    simp [classify, hb1, hb2]
  · intro h
    have h5 : statuteLimit < daysOpen := hlt1.mp h
    have hb1 : decide (statuteLimit < daysOpen) = true := by
      simp only [decide_eq_true_eq]; exact h5
    simp [classify, hb1]
  · intro h
    have h5 : 5 * daysOpen ≤ 4 * statuteLimit := hle8.mp h.le
    have hb1 : decide (statuteLimit < daysOpen) = false := by
      simp only [decide_eq_false_iff_not]; omega
    have hb2 : ratioGtPoint8 daysOpen statuteLimit = false := by
      simp only [ratioGtPoint8, decide_eq_false_iff_not]; omega
    simp [classify, hb1, hb2]
  · intro h
    have h6 : daysOpen ≤ statuteLimit := hle1.mp h.le
    have h7 : statuteLimit ≤ daysOpen := by
      by_contra hlt
      push_neg at hlt
      have : (daysOpen : ℚ) / statuteLimit < 1 := by
        rw [div_lt_one (by exact_mod_cast hs)]
        exact_mod_cast hlt
      rw [h] at this
      exact lt_irrefl _ this
    have hb1 : decide (statuteLimit < daysOpen) = false := by
      simp only [decide_eq_false_iff_not]; omega
    have hb2 : ratioGtPoint8 daysOpen statuteLimit = true := by
      simp only [ratioGtPoint8, decide_eq_true_eq]; omega
    simp [classify, hb1, hb2]
  · cases hb1 : decide (statuteLimit < daysOpen) <;>
      cases hb2 : ratioGtPoint8 daysOpen statuteLimit <;>
      simp [classify, hb1, hb2]
  · rcases le_or_lt ((daysOpen : ℚ) / statuteLimit) (4 / 5) with h | h
    · exact Or.inl h
    · rcases le_or_lt ((daysOpen : ℚ) / statuteLimit) 1 with h2 | h2
      · exact Or.inr (Or.inl ⟨h, h2⟩)
      · exact Or.inr (Or.inr h2)
  · cases hb1 : decide (statuteLimit < daysOpen) <;>
      cases hb2 : ratioGtPoint8 daysOpen statuteLimit <;>
      simp [classify, rowStyle, styleOf, hb1, hb2]

/-- Witness for C2 at the violating permit (45 days open, limit 30). -/
theorem classification_bands_witness :
    (0 < 30) ∧ (true = decide (30 < 45)) ∧
    (classify true 45 30 = Classification.Violation ↔ true = true) :=
  ⟨by decide, by decide,
    (classification_bands 45 30 (by decide) true (by decide)).2.2.2.2.2.1⟩

/-- C3: a trigger whose remembered id differs from the current selection is
classified StaleSelection by the pipeline guard, the pipeline does not run,
and the rerun leaves the session state untouched (the session stays on the
current selection, unenforced). -/
theorem stale_trigger_is_rejected (fmt : Nat → String) (st : SessionState)
    (inp : RunInput) (p2 : String)
    (hcur : inp.currentSelection = some p2)
    (htr : st.trigger = true)
    (hstale : st.selected_id ≠ some p2)
    (hpress : inp.pressTrigger = false) :
    triggerOutcome fmt st inp.currentSelection =
      TriggerOutcome.staleSelection ∧
    runScript fmt st inp = st ∧
    (runScript fmt st inp).enforcement_log = st.enforcement_log := by
  have hbeq : (st.selected_id == some p2) = false := by
    simp only [beq_eq_false_iff_ne, ne_eq]
    exact hstale
  have hrun : runScript fmt st inp = st := by
    unfold runScript runScriptEv
    rw [hcur, hpress]
    simp only [Bool.false_eq_true, if_false, if_neg]
    cases hf : (get_permit_data fmt).find? (fun p => p.permitId == p2) with
    | none => rfl
    | some target => simp [hbeq]
  refine ⟨?_, hrun, by rw [hrun]⟩
  rw [hcur]
  simp [triggerOutcome, htr, hbeq]

/-- Witness for C3: trigger remembered on MIA-24-001, selection moved to
JAX-24-882 before the rerun. -/
theorem stale_trigger_is_rejected_witness :
    (some "MIA-24-001" ≠ some "JAX-24-882") ∧
    triggerOutcome (fun _ => "")
      { trigger := true, selected_id := some "MIA-24-001",
        enforcement_log := [] } (some "JAX-24-882") =
      TriggerOutcome.staleSelection ∧
    runScript (fun _ => "")
      { trigger := true, selected_id := some "MIA-24-001",
        enforcement_log := [] }
      { currentSelection := some "JAX-24-882", pressTrigger := false,
        pressStartOver := false, dateStr := "", nowStr := "", nonce := "" } =
      { trigger := true, selected_id := some "MIA-24-001",
        enforcement_log := [] } := by
  have h := stale_trigger_is_rejected (fun _ => "")
    { trigger := true, selected_id := some "MIA-24-001",
      enforcement_log := [] }
    { currentSelection := some "JAX-24-882", pressTrigger := false,
      pressStartOver := false, dateStr := "", nowStr := "", nonce := "" }
    "JAX-24-882" rfl rfl (by decide) rfl
  exact ⟨by decide, h.1, h.2.1⟩

/-- One rerun only ever appends to the log: the new log is the old log
followed by the records of this step. -/
theorem log_step (fmt : Nat → String) (st : SessionState) (inp : RunInput) :
    (runScript fmt st inp).enforcement_log =
      st.enforcement_log ++ stepRecords fmt st inp := by
  unfold runScript runScriptEv stepRecords
  cases hc : inp.currentSelection with
  | none => simp
  | some id =>
    cases hf : (get_permit_data fmt).find? (fun p => p.permitId == id) <;>
    cases hp : inp.pressTrigger <;>
    cases hso : inp.pressStartOver <;>
    simp [hp, hso, hf] <;>
    by_cases hg : st.trigger = true ∧ st.selected_id = some id <;>
    simp [hg]

/-- One rerun appends exactly one record when its pipeline fires, none
otherwise. -/
theorem step_length (fmt : Nat → String) (st : SessionState)
    (inp : RunInput) :
    (stepRecords fmt st inp).length =
      if pipelineRan fmt st inp then 1 else 0 := by
  unfold stepRecords pipelineRan
  cases hc : inp.currentSelection with
  | none => simp
  | some id =>
    cases hf : (get_permit_data fmt).find? (fun p => p.permitId == id) <;>
    cases hp : inp.pressTrigger <;>
    simp [hp, hf] <;>
    by_cases hg : st.trigger = true ∧ st.selected_id = some id <;>
    simp [hg]

/-- The log after a sequence of reruns is the starting log followed by the
appended records, in completion order. -/
theorem log_many (fmt : Nat → String) (inps : List RunInput) :
    ∀ st : SessionState,
      (runMany fmt st inps).enforcement_log =
        st.enforcement_log ++ manyRecords fmt st inps := by
  induction inps with
  | nil => intro st; simp [runMany, manyRecords]
  | cons i is ih =>
    intro st
    simp only [runMany, manyRecords]
    rw [ih, log_step, List.append_assoc]

/-- The number of appended records equals the number of completed
pipelines. -/
theorem count_many (fmt : Nat → String) (inps : List RunInput) :
    ∀ st : SessionState,
      (manyRecords fmt st inps).length = countCompleted fmt st inps := by
  induction inps with
  | nil => intro st; simp [manyRecords, countCompleted]
  | cons i is ih =>
    intro st
    simp only [manyRecords, countCompleted, List.length_append]
    rw [ih, step_length]

/-- C4: after any sequence of reruns the enforcement log is the starting log
followed by exactly one record per completed cycle, in completion order;
a rerun whose pipeline fires appends exactly one record and one whose
pipeline does not fire appends none, and no rerun ever mutates, reorders or
removes an existing entry (the old log is always a prefix of the new
one). -/
theorem ledger_append_only (fmt : Nat → String) (st : SessionState)
    (inps : List RunInput) :
    ((runMany fmt st inps).enforcement_log =
      st.enforcement_log ++ manyRecords fmt st inps) ∧
    ((manyRecords fmt st inps).length = countCompleted fmt st inps) ∧
    (∀ (st2 : SessionState) (i : RunInput),
      (runScript fmt st2 i).enforcement_log =
        st2.enforcement_log ++ stepRecords fmt st2 i) ∧
    (∀ (st2 : SessionState) (i : RunInput),
      (stepRecords fmt st2 i).length =
        if pipelineRan fmt st2 i then 1 else 0) :=
  ⟨log_many fmt inps st, count_many fmt inps st,
    fun st2 i => log_step fmt st2 i, fun st2 i => step_length fmt st2 i⟩

/-- C5 (amended): when a cycle completes (and Start Over was not clicked in
the same rerun), the EnforcementRecord is appended — the log grows by
exactly one record — and the trigger flag is cleared, but the remembered
selected id is NOT cleared: it still equals the enforced permit's id. -/
theorem completed_cycle_resets_trigger_not_selection (fmt : Nat → String)
    (st : SessionState) (inp : RunInput)
    (hran : pipelineRan fmt st inp = true)
    (hso : inp.pressStartOver = false) :
    (∃ r : EnforcementRecord,
      (runScript fmt st inp).enforcement_log =
        st.enforcement_log ++ [r]) ∧
    (runScript fmt st inp).trigger = false ∧
    (runScript fmt st inp).selected_id = inp.currentSelection := by
  refine ⟨?_, ?_⟩
  · have h1 := log_step fmt st inp
    have h2 := step_length fmt st inp
    rw [hran, if_pos rfl] at h2
    obtain ⟨r, hr⟩ := List.length_eq_one.mp h2
    exact ⟨r, by rw [h1, hr]⟩
  unfold pipelineRan at hran
  unfold runScript runScriptEv
  cases hc : inp.currentSelection with
  | none => rw [hc] at hran; simp at hran
  | some id =>
    rw [hc] at hran
    cases hf : (get_permit_data fmt).find? (fun p => p.permitId == id) with
    | none => simp [hf] at hran
    | some target =>
      cases hp : inp.pressTrigger with
      | true => simp [hp, hso, hf]
      | false =>
        simp [hf, hp] at hran
        simp [hp, hso, hf, hran]

/-- Witness for C5's amended statement at a concrete completed cycle: the
hypotheses hold there, the log has grown to length one, the trigger is
clear, and the selected id is retained. -/
theorem completed_cycle_resets_trigger_not_selection_witness :
    pipelineRan (fun _ => "") initState
      { currentSelection := some "MIA-24-001", pressTrigger := true,
        pressStartOver := false, dateStr := "D", nowStr := "T",
        nonce := "N" } = true ∧
    (runScript (fun _ => "") initState
      { currentSelection := some "MIA-24-001", pressTrigger := true,
        pressStartOver := false, dateStr := "D", nowStr := "T",
        nonce := "N" }).enforcement_log.length = 1 ∧
    (runScript (fun _ => "") initState
      { currentSelection := some "MIA-24-001", pressTrigger := true,
        pressStartOver := false, dateStr := "D", nowStr := "T",
        nonce := "N" }).trigger = false ∧
    (runScript (fun _ => "") initState
      { currentSelection := some "MIA-24-001", pressTrigger := true,
        pressStartOver := false, dateStr := "D", nowStr := "T",
        nonce := "N" }).selected_id = some "MIA-24-001" := by
  have h := completed_cycle_resets_trigger_not_selection (fun _ => "")
    initState
    { currentSelection := some "MIA-24-001", pressTrigger := true,
      pressStartOver := false, dateStr := "D", nowStr := "T", nonce := "N" }
    (by decide) rfl
  obtain ⟨r, hr⟩ := h.1
  exact ⟨by decide, by rw [hr]; rfl, h.2.1, h.2.2⟩

/-- C5 counterexample: after the concrete cycle on MIA-24-001 completes, the
session does NOT reset to Idle — the trigger flag is cleared but the
remembered selected id is still set, contradicting the claim that both are
cleared after completion. -/
theorem completed_cycle_keeps_selected_id :
    pipelineRan (fun _ => "") initState
      { currentSelection := some "MIA-24-001", pressTrigger := true,
        pressStartOver := false, dateStr := "D", nowStr := "T",
        nonce := "N" } = true ∧
    (runScript (fun _ => "") initState
      { currentSelection := some "MIA-24-001", pressTrigger := true,
        pressStartOver := false, dateStr := "D", nowStr := "T",
        nonce := "N" }).trigger = false ∧
    (runScript (fun _ => "") initState
      { currentSelection := some "MIA-24-001", pressTrigger := true,
        pressStartOver := false, dateStr := "D", nowStr := "T",
        nonce := "N" }).selected_id ≠ none :=
  ⟨by decide, by decide, by decide⟩

/-- The hex rendering of a hash state always has 64 characters. -/
theorem hexOfHash_length (s : H8) : (hexOfHash s).length = 64 := by
  simp [hexOfHash, toHex8]

/-- Every SHA-256 hex digest has 64 characters. -/
theorem sha256hex_length (msg : List Nat) : (sha256hex msg).length = 64 := by
  simp only [sha256hex]
  rw [String.length_mk]
  exact hexOfHash_length _

/-- C6: the audit-proof generator computes a fixed-length digest — 64 hex
characters of SHA-256 — over the notice text concatenated with the nonce,
and is deterministic: identical `(noticeText, nonce)` inputs always yield
the identical digest. -/
theorem audit_proof_digest_deterministic_64 (noticeText nonce : String) :
    (hash_data (noticeText ++ nonce)).length = 64 ∧
    ∀ noticeText2 nonce2 : String,
      noticeText = noticeText2 → nonce = nonce2 →
        hash_data (noticeText ++ nonce) = hash_data (noticeText2 ++ nonce2) :=
  ⟨sha256hex_length _, fun _ _ h1 h2 => by rw [h1, h2]⟩

/-- Witness for C6 at a concrete notice and nonce. -/
theorem audit_proof_digest_deterministic_64_witness :
    (hash_data ("NOTICE" ++ "1700000000.0")).length = 64 ∧
    hash_data ("NOTICE" ++ "1700000000.0") =
      hash_data ("NOTICE" ++ "1700000000.0") :=
  ⟨(audit_proof_digest_deterministic_64 "NOTICE" "1700000000.0").1,
   (audit_proof_digest_deterministic_64 "NOTICE" "1700000000.0").2
     "NOTICE" "1700000000.0" rfl rfl⟩

set_option maxRecDepth 400000 in
/-- C7: two successive full enforcement cycles on the same permit id append
two ledger entries — one per cycle, each notarized from its own nonce
(`hash_data (letter ++ nonce_i)`, no caching or deduplication) — and with
the distinct generation-time nonces of the scenario the two proof digests
and the two ledger entries are distinct. -/
theorem two_cycles_independent_distinct_proofs :
    (∀ n1 n2 : String,
      (runMany demoFmt initState
        [demoInput n1, demoInput n2]).enforcement_log =
        [demoEntry n1, demoEntry n2]) ∧
    hash_data (demoLetter ++ "1700000000.0") ≠
      hash_data (demoLetter ++ "1700000001.0") ∧
    demoEntry "1700000000.0" ≠ demoEntry "1700000001.0" := by
  refine ⟨fun n1 n2 => rfl, ?_, ?_⟩
  · decide
  · decide

/-- C8 counterexample: for a permit with `statuteLimit = 0` (violation flag
false, 45 days open) the code computes a classification — AtRisk, because
the unguarded division yields an infinite ratio and `inf > 0.8` holds — and
does not signal `InvalidPermitData`: no rejection path exists in
`App.py`. -/
theorem zero_statute_limit_is_classified_not_rejected :
    evaluate false 45 0 = Except.ok Classification.AtRisk ∧
    evaluate false 45 0 ≠ Except.error EvalError.invalidPermitData := by
  refine ⟨rfl, ?_⟩
  intro h
  simp [evaluate] at h

/-- Witness for C4 at the initial state with a single triggered rerun. -/
theorem ledger_append_only_witness :
    (runMany (fun _ => "") initState
      [{ currentSelection := some "MIA-24-001", pressTrigger := true,
         pressStartOver := false, dateStr := "D", nowStr := "T",
         nonce := "N" }]).enforcement_log =
      initState.enforcement_log ++ manyRecords (fun _ => "") initState
        [{ currentSelection := some "MIA-24-001", pressTrigger := true,
           pressStartOver := false, dateStr := "D", nowStr := "T",
           nonce := "N" }] :=
  (ledger_append_only (fun _ => "") initState
    [{ currentSelection := some "MIA-24-001", pressTrigger := true,
       pressStartOver := false, dateStr := "D", nowStr := "T",
       nonce := "N" }]).1

/-- C8 (amended): the code performs no `statuteLimit` validation at all —
evaluation is total, never signals any error, and a permit with
`statuteLimit = 0` is still classified (AtRisk when `daysOpen > 0` via the
infinite ratio, Compliant when `daysOpen = 0` via the NaN comparison being
false). -/
theorem evaluation_total_no_validation (violation : Bool)
    (daysOpen statuteLimit : Nat) :
    evaluate violation daysOpen statuteLimit =
      Except.ok (classify violation daysOpen statuteLimit) ∧
    (∀ e : EvalError,
      evaluate violation daysOpen statuteLimit ≠ Except.error e) ∧
    (classify false daysOpen 0 =
      if 0 < daysOpen then Classification.AtRisk
      else Classification.Compliant) := by
  refine ⟨rfl, ?_, ?_⟩
  · intro e h
    simp [evaluate] at h
  · by_cases h : 0 < daysOpen
    · have h5 : 4 * 0 < 5 * daysOpen := by omega
      simp [classify, ratioGtPoint8, h5, h]
    · have h0 : daysOpen = 0 := by omega
      subst h0
      simp [classify, ratioGtPoint8]

/-- Witness for C8's amended statement at a concrete permit shape. -/
theorem evaluation_total_no_validation_witness :
    evaluate false 45 30 = Except.ok (classify false 45 30) :=
  (evaluation_total_no_validation false 45 30).1

/-- C10: the timestamp printed in the rendered PDF's proof footer is an
independent input sampled at PDF-creation time and is not an input to the
proof digest: the digest line depends only on the notice text and the
earlier `time.time()` nonce, so the same digest can be rendered beside two
different printed timestamps. -/
theorem pdf_timestamp_not_bound_to_digest
    (letterText nonce ts1 ts2 : String) (hne : ts1 ≠ ts2) :
    (create_pdf_letter letterText (hash_data (letterText ++ nonce))
        ts1).proofLine =
      "CRYPTOGRAPHIC PROOF: " ++ hash_data (letterText ++ nonce) ∧
    (create_pdf_letter letterText (hash_data (letterText ++ nonce))
        ts1).proofLine =
      (create_pdf_letter letterText (hash_data (letterText ++ nonce))
        ts2).proofLine ∧
    (create_pdf_letter letterText (hash_data (letterText ++ nonce))
        ts1).timestampLine ≠
      (create_pdf_letter letterText (hash_data (letterText ++ nonce))
        ts2).timestampLine := by
  refine ⟨rfl, rfl, ?_⟩
  intro h
  apply hne
  simp only [create_pdf_letter] at h
  have h2 := congrArg String.data h
  rw [String.data_append, String.data_append] at h2
  exact String.ext (List.append_cancel_left h2)

/-- Witness for C10 at two concrete PDF-creation timestamps one second
apart. -/
theorem pdf_timestamp_not_bound_to_digest_witness :
    (("2025-10-12T10:00:00" : String) ≠ "2025-10-12T10:00:01") ∧
    (create_pdf_letter "L" (hash_data ("L" ++ "1.0"))
        "2025-10-12T10:00:00").timestampLine ≠
      (create_pdf_letter "L" (hash_data ("L" ++ "1.0"))
        "2025-10-12T10:00:01").timestampLine :=
  ⟨by decide,
    (pdf_timestamp_not_bound_to_digest "L" "1.0" _ _ (by decide)).2.2⟩

/-- Witness for C7: the structural conjunct instantiated at the scenario's
two nonces. -/
theorem two_cycles_independent_distinct_proofs_witness :
    (runMany demoFmt initState
      [demoInput "1700000000.0", demoInput "1700000001.0"]).enforcement_log =
      [demoEntry "1700000000.0", demoEntry "1700000001.0"] :=
  two_cycles_independent_distinct_proofs.1 "1700000000.0" "1700000001.0"

/-- A well-formed selection (an id offered by the violations selectbox)
always has a target row in the registry. -/
theorem wf_target_found (fmt : Nat → String) (id : String)
    (h : (violations fmt).any (fun p => p.permitId == id) = true) :
    ((get_permit_data fmt).find?
      (fun p => p.permitId == id)).isSome = true := by
  rw [List.any_eq_true] at h
  obtain ⟨p, hp, hpe⟩ := h
  rw [List.find?_isSome]
  exact ⟨p, List.mem_of_mem_filter hp, hpe⟩

/-- A rerun started with the trigger flag clear ends with it clear, and its
event trace is either empty or one complete trigger-to-completion cycle. -/
theorem run_from_quiescent (fmt : Nat → String) (st : SessionState)
    (inp : RunInput) (h0 : st.trigger = false)
    (hwf : wfInput fmt inp = true) :
    (runScriptEv fmt st inp).1.trigger = false ∧
    ((runScriptEv fmt st inp).2 = [] ∨
      ∃ id, (runScriptEv fmt st inp).2 =
        [Ev.triggerAccepted id, Ev.cycleStart id, Ev.drafted id,
         Ev.notarized id, Ev.completed id]) := by
  unfold runScriptEv
  simp only [wfInput] at hwf
  cases hc : inp.currentSelection with
  | none => simp [h0]
  | some id =>
    rw [hc] at hwf
    simp only [] at hwf
    have hfs := wf_target_found fmt id hwf
    cases hf : (get_permit_data fmt).find? (fun p => p.permitId == id) with
    | none => rw [hf] at hfs; simp at hfs
    | some target =>
      cases hp : inp.pressTrigger with
      | false => simp [hp, hf, h0]
      | true =>
        cases hso : inp.pressStartOver <;>
          exact ⟨by simp [hp, hf, hso], Or.inr ⟨id, by simp [hp, hf, hso]⟩⟩

/-- Prepending an empty or complete cycle trace preserves the single-flight
scan. -/
theorem singleFlight_append_run (evs rest : List Ev)
    (h : evs = [] ∨ ∃ id, evs =
      [Ev.triggerAccepted id, Ev.cycleStart id, Ev.drafted id,
       Ev.notarized id, Ev.completed id]) :
    singleFlightB false (evs ++ rest) = singleFlightB false rest := by
  rcases h with rfl | ⟨id, rfl⟩
  · rfl
  · rfl

/-- From a quiescent session state, any sequence of UI-producible reruns
yields a trace that passes the single-flight scan. -/
theorem trace_quiescent (fmt : Nat → String) (inps : List RunInput) :
    ∀ st : SessionState, st.trigger = false →
      (∀ i ∈ inps, wfInput fmt i = true) →
      singleFlightB false (sessionTrace fmt st inps) = true := by
  induction inps with
  | nil => intro st _ _; rfl
  | cons i is ih =>
    intro st h0 hwf
    obtain ⟨ht, hev⟩ := run_from_quiescent fmt st i h0 (hwf i (by simp))
    show singleFlightB false ((runScriptEv fmt st i).2 ++
      sessionTrace fmt (runScriptEv fmt st i).1 is) = true
    rw [singleFlight_append_run _ _ hev]
    exact ih (runScriptEv fmt st i).1 ht (fun j hj => hwf j (by simp [hj]))

/-- A trace passing the single-flight scan has, in every prefix, at most one
more cycle start than cycle completions. -/
theorem singleFlight_prefix_bound :
    ∀ (pre suf : List Ev) (b : Bool),
      singleFlightB b (pre ++ suf) = true →
      countStarts pre + (if b then 1 else 0) ≤ countCompletes pre + 1 := by
  intro pre
  induction pre with
  | nil =>
    intro suf b _
    cases b <;> simp [countStarts, countCompletes]
  | cons e pre ih =>
    intro suf b h
    rw [List.cons_append] at h
    cases e with
    | triggerAccepted id =>
      cases b with
      | false =>
        have h2 := ih suf false (by simpa [singleFlightB] using h)
        simp only [countStarts, countCompletes, List.countP_cons] at h2 ⊢
        simp at h2 ⊢
        omega
      | true => simp [singleFlightB] at h
    | cycleStart id =>
      cases b with
      | false =>
        have h2 := ih suf true (by simpa [singleFlightB] using h)
        simp only [countStarts, countCompletes, List.countP_cons] at h2 ⊢
        simp at h2 ⊢
        omega
      | true => simp [singleFlightB] at h
    | drafted id =>
      cases b with
      | false =>
        have h2 := ih suf false (by simpa [singleFlightB] using h)
        simp only [countStarts, countCompletes, List.countP_cons] at h2 ⊢
        simp at h2 ⊢
        omega
      | true =>
        have h2 := ih suf true (by simpa [singleFlightB] using h)
        simp only [countStarts, countCompletes, List.countP_cons] at h2 ⊢
        simp at h2 ⊢
        omega
    | notarized id =>
      cases b with
      | false =>
        have h2 := ih suf false (by simpa [singleFlightB] using h)
        simp only [countStarts, countCompletes, List.countP_cons] at h2 ⊢
        simp at h2 ⊢
        omega
      | true =>
        have h2 := ih suf true (by simpa [singleFlightB] using h)
        simp only [countStarts, countCompletes, List.countP_cons] at h2 ⊢
        simp at h2 ⊢
        omega
    | completed id =>
      cases b with
      | false =>
        have h2 := ih suf false (by simpa [singleFlightB] using h)
        simp only [countStarts, countCompletes, List.countP_cons] at h2 ⊢
        simp at h2 ⊢
        omega
      | true =>
        have h2 := ih suf false (by simpa [singleFlightB] using h)
        simp only [countStarts, countCompletes, List.countP_cons] at h2 ⊢
        simp at h2 ⊢
        omega

/-- C9: within one session started quiescent and driven by UI-producible
inputs, at most one enforcement cycle is ever in flight: the trace passes
the single-flight scan (no cycle starts and no trigger is accepted while a
cycle is in flight), and every trace prefix has at most one more cycle
start than completions.  A trigger arriving while a cycle is in one of the
in-flight phases cannot be processed at all in the synchronous rerun model,
so the rejection branch is never exercised. -/
theorem single_flight_invariant (fmt : Nat → String) (st : SessionState)
    (inps : List RunInput) (h0 : st.trigger = false)
    (hwf : ∀ i ∈ inps, wfInput fmt i = true) :
    singleFlightB false (sessionTrace fmt st inps) = true ∧
    ∀ pre suf : List Ev, sessionTrace fmt st inps = pre ++ suf →
      countStarts pre ≤ countCompletes pre + 1 := by
  have main := trace_quiescent fmt inps st h0 hwf
  refine ⟨main, fun pre suf hps => ?_⟩
  have h2 := singleFlight_prefix_bound pre suf false
    (by rw [← hps]; exact main)
  simpa using h2

/-- Witness for C9: one triggered rerun on MIA-24-001 from the initial
session state. -/
theorem single_flight_invariant_witness :
    singleFlightB false (sessionTrace (fun _ => "") initState
      [{ currentSelection := some "MIA-24-001", pressTrigger := true,
         pressStartOver := false, dateStr := "D", nowStr := "T",
         nonce := "N" }]) = true :=
  (single_flight_invariant (fun _ => "") initState
    [{ currentSelection := some "MIA-24-001", pressTrigger := true,
       pressStartOver := false, dateStr := "D", nowStr := "T",
       nonce := "N" }] rfl (by decide)).1

end PermitSheriff
